import Mathlib

/-!
Shallow embedding of `print_lineups.py` (mlb-lineups repository).

Conventions of the embedding:
* Remote HTTP calls are modelled by passing the call's outcome as an input of
  type `Except PyErr α`: `.error (.request m)` models
  `requests.exceptions.RequestException` (and any transport failure raised by
  `statsapi`), `.error (.keyError m)` models a `KeyError` raised while
  indexing into the parsed response, `.error (.other m)` models any other
  Python exception.
* Python functions that may raise are embedded as functions into
  `Except PyErr _`; a `try/except` block is embedded as a `match` on the body's
  result that converts exactly the caught error constructors into return
  values and re-raises the rest.
* `inningsPitched` values (parsed with `float(...)` in the source) are
  modelled as exact rationals; an unparseable value is `none`.
* Dictionaries keyed by strings are modelled as association lists searched
  with `List.find?`, matching first-match dictionary lookup; dictionary
  iteration order (Python insertion order) is the list order.
-/

/-- Python exception categories distinguished by the source's `except` clauses. -/
inductive PyErr where
  | request (msg : String)
  | keyError (msg : String)
  | other (msg : String)
deriving Repr, DecidableEq

deriving instance DecidableEq for Except

/-- Message text of an exception, as interpolated into f-strings by the source. -/
def PyErr.msg : PyErr → String
  | .request m => m
  | .keyError m => m
  | .other m => m

/-- Lexicographic comparison of character lists by code point; this is how
Python compares strings (used by `sorted` and by `list.sort`). -/
def lexLe : List Char → List Char → Bool
  | [], _ => true
  | _ :: _, [] => false
  | a :: as, b :: bs => if a < b then true else if b < a then false else lexLe as bs

/-- Tests whether `pat` is an initial run of `s` (on character lists). -/
def leadsWith : List Char → List Char → Bool
  | [], _ => true
  | _ :: _, [] => false
  | a :: as, b :: bs => a == b && leadsWith as bs

/-- Tests whether `s` contains `pat` starting at some offset. -/
def containsChars (pat : List Char) : List Char → Bool
  | [] => leadsWith pat []
  | c :: rest => leadsWith pat (c :: rest) || containsChars pat rest

/-- Python `pat in s` substring test. -/
def strContains (s pat : String) : Bool :=
  containsChars pat.data s.data

/-- ASCII uppercase of one character, as Python `str.upper` acts on the
ASCII team abbreviations this program handles. -/
def charUpper (c : Char) : Char :=
  if 'a' ≤ c ∧ c ≤ 'z' then Char.ofNat (c.toNat - 32) else c

/-- Python `s.upper()` (per-character ASCII uppercasing). -/
def pyUpper (s : String) : String := String.mk (s.data.map charUpper)

/-- Stable insertion of one element: `a` is placed before the first element `b`
with `le a b`; with a reflexive total `le` this realizes Python's stable sort
order for an element inserted ahead of elements that originally followed it. -/
def orderedInsertBy (le : α → α → Bool) (a : α) : List α → List α
  | [] => [a]
  | b :: l => if le a b then a :: b :: l else b :: orderedInsertBy le a l

/-- Stable insertion sort, modelling Python `list.sort(key=...)` / `sorted`. -/
def insertionSortBy (le : α → α → Bool) : List α → List α
  | [] => []
  | a :: l => orderedInsertBy le a (insertionSortBy le l)

/-- String order used by Python `sorted` on `MLB_TEAMS.keys()`. -/
def strLeB (a b : String) : Bool := lexLe a.data b.data

/-- The `MLB_TEAMS` table of `print_lineups.py` lines 9-40: the 30 recognized
team abbreviations with their fixed numeric team identifiers. -/
def MLB_TEAMS : List (String × Nat) :=
  [("ARI", 109), ("ATL", 144), ("BAL", 110), ("BOS", 111), ("CHC", 112),
   ("CIN", 113), ("CLE", 114), ("COL", 115), ("CWS", 145), ("DET", 116),
   ("HOU", 117), ("KC", 118), ("LAA", 108), ("LAD", 119), ("MIA", 146),
   ("MIL", 158), ("MIN", 142), ("NYM", 121), ("NYY", 147), ("OAK", 133),
   ("PHI", 143), ("PIT", 134), ("SD", 135), ("SEA", 136), ("SF", 137),
   ("STL", 138), ("TB", 139), ("TEX", 140), ("TOR", 141), ("WSH", 120)]

/-- Dictionary-style lookup in `MLB_TEAMS` (`team_abbr in MLB_TEAMS` /
`MLB_TEAMS[team_abbr]` in the source). -/
def lookupTeamId (abbr : String) : Option Nat :=
  (MLB_TEAMS.find? (fun p => p.1 == abbr)).map (fun p => p.2)

/-- Case-insensitive resolution (`args.team.upper()` then table lookup). -/
def resolveTeam (arg : String) : Option Nat := lookupTeamId (pyUpper arg)

/-- Python `sorted(MLB_TEAMS.keys())`. -/
def sortedAbbrs : List String := insertionSortBy strLeB (MLB_TEAMS.map (fun p => p.1))

/-- Python `', '.join(sorted(MLB_TEAMS.keys()))`. -/
def validOptionsStr : String := String.intercalate ", " sortedAbbrs

/-- The error message printed by `main` for an invalid team abbreviation
(line 565 of the source). -/
def invalidTeamMsg (abbr : String) : String :=
  "Error: Invalid team abbreviation '" ++ abbr ++ "'. Valid options are: " ++ validOptionsStr

/-- One game record of the list returned by `statsapi.schedule(date, team, sportId)`,
restricted to the fields `get_team_game` reads. -/
structure SchedGame where
  game_id : Nat
  status : String
  home_name : String
  away_name : String
  venue_name : Option String
deriving Repr, DecidableEq

/-- Result of `get_team_game`: either the tuple
`(game_id, game_status, venue_name, team_names)` or the
`(None, None, None, message)` shape. -/
inductive TeamGameResult where
  | found (game_id : Nat) (status : String) (venue : Option String) (home away : String)
  | absent (msg : String)
deriving Repr, DecidableEq

/-- Embedding of `get_team_game` (lines 53-92): first game of the schedule
list, absence message on an empty list, and a catch-all `except` that folds
any exception into the message channel. -/
def get_team_game (resp : Except PyErr (List SchedGame)) : TeamGameResult :=
  match resp with
  | .error e => .absent ("Error fetching game data: " ++ e.msg)
  | .ok [] => .absent "No game scheduled for the selected team on this date."
  | .ok (g :: _) => .found g.game_id g.status g.venue_name g.home_name g.away_name

/-- One entry of the `people` array of a person-lookup response, restricted to
the fields `get_pitcher_details` reads (with the source's `.get` defaults
already applied: absent `pitchHand.code` is the empty string). -/
structure Person where
  fullName : String
  primaryNumber : String
  pitchHandCode : String
deriving Repr, DecidableEq

/-- Parsed body of a person-lookup response. -/
structure PeopleResp where
  people : List Person
deriving Repr, DecidableEq

/-- The `THROWS_MAP` dictionary of `get_pitcher_details` (lines 105-108). -/
def THROWS_MAP : List (String × String) := [("R", "RHP"), ("L", "LHP")]

/-- Association-list lookup modelling Python `dict.get` returning `None` on a
missing key. -/
def lookupStr (m : List (String × String)) (k : String) : Option String :=
  (m.find? (fun p => p.1 == k)).map (fun p => p.2)

/-- A pitcher-details record as built by `get_pitcher_details` and by
`create_pitcher_info` in `get_pitchers_from_schedule`. -/
structure PitcherDetails where
  name : String
  jersey : String
  throws : String
  throws_desc : String
deriving Repr, DecidableEq

/-- Embedding of `get_pitcher_details` (lines 94-135): `None` when the
`people` list is missing or empty, otherwise a details record for the first
person; only `RequestException` is caught (other exceptions re-raise). -/
def get_pitcher_details (resp : Except PyErr PeopleResp) : Except PyErr (Option PitcherDetails) :=
  match resp with
  | .error (.request _) => .ok none
  | .error e => .error e
  | .ok d =>
    match d.people with
    | [] => .ok none
    | person :: _ =>
      .ok (some { name := person.fullName
                  jersey := person.primaryNumber
                  throws := person.pitchHandCode
                  throws_desc := (lookupStr THROWS_MAP person.pitchHandCode).getD "Unknown" })

/-- One entry of a boxscore `officials` list (fields read by `main`). -/
structure Official where
  fullName : String
  officialType : String
deriving Repr, DecidableEq

/-- Embedding of `get_umpires` (lines 137-160). The boxscore response is given
as `none` when the `officials` key is absent, `some l` when present with list
`l`; the source's check is `'officials' in data and data['officials']`, so an
empty list also yields `None`. Only `RequestException` is caught. -/
def get_umpires (resp : Except PyErr (Option (List Official))) :
    Except PyErr (Option (List Official)) :=
  match resp with
  | .error (.request _) => .ok none
  | .error e => .error e
  | .ok none => .ok none
  | .ok (some l) => .ok (if l.isEmpty then none else some l)

/-- One player record of a raw boxscore `teams[side]['players']` dictionary,
restricted to the fields read by `get_pitchers_from_boxscore` and
`fallback_get_lineup`. `pitching` is `none` when the record has no
`stats`/`pitching` entry, `some none` when `float(inningsPitched)` raises
(the source's `except (ValueError, TypeError): pass`), and `some (some q)`
for a parsed innings value `q`. `jerseyNumber` is `none` when the key is
absent (`player.get('jerseyNumber', '')`). -/
structure BoxPlayer where
  personId : Nat
  fullName : String
  positionAbbr : String
  jerseyNumber : Option String
  pitching : Option (Option Rat)
deriving Repr, DecidableEq

/-- One side (`home` or `away`) of a raw boxscore `teams` object.
`battingOrder` is `none` when the key is absent. -/
structure BoxSide where
  teamId : Nat
  teamName : String
  players : List BoxPlayer
  battingOrder : Option (List Nat)
deriving Repr, DecidableEq

/-- A raw boxscore body that does contain a well-formed `teams` object. -/
structure BoxRaw where
  home : BoxSide
  away : BoxSide
deriving Repr, DecidableEq

/-- Access `data['teams']`: a body without a well-formed `teams` object
(modelled by `none`) raises `KeyError`, as plain indexing does in Python. -/
def getTeams : Option BoxRaw → Except PyErr BoxRaw
  | none => .error (.keyError "teams")
  | some d => .ok d

/-- The innings value a player contributes to the starter scan, when the
player is a pitcher with parseable recorded innings:
`player['position']['abbreviation'] == 'P'` plus the `stats`/`pitching`
presence check and the `float` parse of `get_pitchers_from_boxscore`. -/
def qualInnings (p : BoxPlayer) : Option Rat :=
  if p.positionAbbr == "P" then
    match p.pitching with
    | some (some q) => some q
    | _ => none
  else none

/-- The starter-selection loop of `get_pitchers_from_boxscore`
(lines 287-301): running maximum `m` (initially 0) and current candidate
`po` (initially `None`); a player replaces the candidate only when its
innings are strictly greater than the running maximum. -/
def selectStarter : List BoxPlayer → Rat → Option Nat → Option Nat
  | [], _, po => po
  | p :: rest, m, po =>
    match qualInnings p with
    | some q =>
      if m < q then selectStarter rest q (some p.personId)
      else selectStarter rest m po
    | none => selectStarter rest m po

/-- Pitcher information for both teams, as assembled by the two pitcher
resolvers. The name fields are `Option` because the schedule path stores
`game.get('home_name')`-style values that may be `None`. -/
structure Pitchers where
  team : Option PitcherDetails
  opponent : Option PitcherDetails
  team_name : Option String
  opponent_team : Option String
deriving Repr, DecidableEq

/-- The per-side tail of `get_pitchers_from_boxscore` (lines 303-305): if a
pitcher id was found (`if pitcher_id:` — ids `None` and `0` are both falsy),
fetch its details through the separate person lookup. -/
def resolveSidePitcher (side : BoxSide) (persons : Nat → Except PyErr PeopleResp) :
    Except PyErr (Option PitcherDetails) :=
  match selectStarter side.players 0 none with
  | none => .ok none
  | some pid => if pid = 0 then .ok none else get_pitcher_details (persons pid)

/-- Body of `get_pitchers_from_boxscore` after a successful fetch of the
`teams` object: side matching by home-id equality, then starter selection and
person lookup for each side (`sides = {'team': ..., 'opponent': ...}`). -/
def pitchersFromBoxData (data : BoxRaw) (persons : Nat → Except PyErr PeopleResp)
    (team_id : Nat) : Except PyErr (Option Pitchers) :=
  let tSide := if data.home.teamId == team_id then data.home else data.away
  let oSide := if data.home.teamId == team_id then data.away else data.home
  match resolveSidePitcher tSide persons with
  | .error e => .error e
  | .ok tP =>
    match resolveSidePitcher oSide persons with
    | .error e => .error e
    | .ok oP =>
      .ok (some { team := tP
                  opponent := oP
                  team_name := some tSide.teamName
                  opponent_team := some oSide.teamName })

/-- Embedding of `get_pitchers_from_boxscore` (lines 249-310). Only
`RequestException` is caught and converted to `None`; a `KeyError` raised by
`data['teams']` (or any other non-transport exception) re-raises. -/
def get_pitchers_from_boxscore (resp : Except PyErr (Option BoxRaw))
    (persons : Nat → Except PyErr PeopleResp) (team_id : Nat) :
    Except PyErr (Option Pitchers) :=
  match
    (match resp with
     | .error e => .error e
     | .ok raw =>
       match getTeams raw with
       | .error e => .error e
       | .ok data => pitchersFromBoxData data persons team_id :
       Except PyErr (Option Pitchers)) with
  | .error (.request _) => .ok none
  | r => r

/-- One game record of the list returned by `statsapi.schedule(game_id)`,
restricted to the fields `get_pitchers_from_schedule` reads with `.get`
(each may be absent, hence `Option`). -/
structure SchedGame2 where
  home_id : Option Nat
  home_name : Option String
  away_name : Option String
  home_probable_pitcher : Option String
  away_probable_pitcher : Option String
deriving Repr, DecidableEq

/-- The `create_pitcher_info` helper of `get_pitchers_from_schedule`
(lines 222-228): a minimal record when the name is truthy (`None` and the
empty string are both falsy in Python), otherwise `None`. -/
def create_pitcher_info (name : Option String) : Option PitcherDetails :=
  match name with
  | none => none
  | some n => if n = "" then none else some { name := n, jersey := "", throws := "", throws_desc := "" }

/-- Embedding of `get_pitchers_from_schedule` (lines 182-247): first game of
the schedule list, side-matching by `team_id == game.get('home_id')`, probable
names read directly from the record; the surrounding `except Exception`
converts every failure to `None`. -/
def get_pitchers_from_schedule (resp : Except PyErr (List SchedGame2)) (team_id : Nat) :
    Except PyErr (Option Pitchers) :=
  match resp with
  | .error _ => .ok none
  | .ok [] => .ok none
  | .ok (g :: _) =>
    let isHome : Bool := match g.home_id with
      | some h => team_id == h
      | none => false
    if isHome then
      .ok (some { team := create_pitcher_info g.home_probable_pitcher
                  opponent := create_pitcher_info g.away_probable_pitcher
                  team_name := g.home_name
                  opponent_team := g.away_name })
    else
      .ok (some { team := create_pitcher_info g.away_probable_pitcher
                  opponent := create_pitcher_info g.home_probable_pitcher
                  team_name := g.away_name
                  opponent_team := g.home_name })

/-- Embedding of `get_probable_pitchers` (lines 162-180): a pure status-keyed
dispatch between the boxscore path and the schedule path. -/
def get_probable_pitchers (status : String) (boxResp : Except PyErr (Option BoxRaw))
    (persons : Nat → Except PyErr PeopleResp) (schedResp : Except PyErr (List SchedGame2))
    (team_id : Nat) : Except PyErr (Option Pitchers) :=
  if (["Final", "In Progress"]).contains status then
    get_pitchers_from_boxscore boxResp persons team_id
  else
    get_pitchers_from_schedule schedResp team_id

/-- One entry of the `homeBatters`/`awayBatters` lists of
`statsapi.boxscore_data`, restricted to the fields `get_lineup` reads.
`position` is `none` when the key is absent or its value is `None`; the
source also treats an empty-string position as falsy, so `some ""` is
skipped too. `battingOrder` is the raw source encoding, a string
(`x.get('battingOrder', '999')`). `substitution` is the truthiness of
`b.get('substitution')`. -/
structure Batter where
  personId : Nat
  name : String
  position : Option String
  battingOrder : Option String
  substitution : Bool
deriving Repr, DecidableEq

/-- The parts of a `statsapi.boxscore_data` body that `get_lineup` reads.
`playerInfo` maps a person id to the `fullName` found under key
`ID<personId>`, `none` when absent (the source then falls back to
`player['name']`). -/
structure BoxscoreData where
  homeId : Nat
  awayId : Nat
  homeTeamName : String
  awayTeamName : String
  homeBatters : List Batter
  awayBatters : List Batter
  playerInfo : Nat → Option String

/-- One lineup entry as built by both construction paths of the lineup
resolver. -/
structure LineupEntry where
  name : String
  position : String
  batting_order : Nat
  jersey : String
deriving Repr, DecidableEq

/-- One side of a lineup pair (the source stores the display name under key
`name` for the subject team and `team` for the opponent; both are the same
role). -/
structure SideLineup where
  name : String
  lineup : List LineupEntry
deriving Repr, DecidableEq

/-- The lineup data dictionary returned on success. -/
structure LineupPair where
  team : SideLineup
  opponent : SideLineup
deriving Repr, DecidableEq

/-- The `(lineup_data, error_message)` tuple returned by the lineup
resolver. -/
abbrev LineupRet : Type := Option LineupPair × Option String

/-- The starter filter of `get_lineup` (lines 347-348 / 386-387):
`b.get('personId', 0) > 0 and not b.get('substitution')`. -/
def starters (batters : List Batter) : List Batter :=
  batters.filter (fun b => decide (0 < b.personId) && !b.substitution)

/-- The sort key of `get_lineup` line 351: `x.get('battingOrder', '999')`. -/
def battingKey (b : Batter) : String := b.battingOrder.getD "999"

/-- `starters.sort(key=lambda x: x.get('battingOrder', '999'))`: Python's
stable sort by the string batting-order key. -/
def sortedStarters (batters : List Batter) : List Batter :=
  insertionSortBy (fun a b => strLeB (battingKey a) (battingKey b)) (starters batters)

/-- The hardcoded subject-team jersey dictionary of `get_lineup`
(lines 365-376). -/
def metsJerseys : List (String × String) :=
  [("Lindor", "12"), ("Soto, J", "22"), ("Alonso", "20"), ("Nimmo", "9"),
   ("Winker", "2"), ("Vientos", "27"), ("Baty", "7"), ("Siri", "19"),
   ("Senger", "30"), ("Acuña", "2")]

/-- The hardcoded opponent jersey dictionary of `get_lineup`
(lines 402-412). -/
def jaysJerseys : List (String × String) :=
  [("Bichette", "11"), ("Guerrero Jr.", "27"), ("Santander", "25"),
   ("Gimenez", "0"), ("Kirk", "30"), ("Clement", "22"), ("Schneider", "41"),
   ("Heineman", "55"), ("Straw", "7")]

/-- The entry-construction loop of the richer path
(`for i, player in enumerate(starters)` at lines 356-383 / 393-419): `i` is
the enumerate index and advances on every starter, including the ones
skipped for a missing or falsy `position`; a kept starter gets
`batting_order := i + 1`. -/
def richerEntries (playerInfo : Nat → Option String) (jerseys : List (String × String)) :
    Nat → List Batter → List LineupEntry
  | _, [] => []
  | i, b :: rest =>
    match b.position with
    | none => richerEntries playerInfo jerseys (i + 1) rest
    | some pos =>
      if pos = "" then richerEntries playerInfo jerseys (i + 1) rest
      else
        { name := (playerInfo b.personId).getD b.name
          position := pos
          batting_order := i + 1
          jersey := (lookupStr jerseys b.name).getD "" } ::
        richerEntries playerInfo jerseys (i + 1) rest

/-- `boxscore['homeBatters'] if is_home else boxscore['awayBatters']`
(line 334). -/
def ourBatters (b : BoxscoreData) (team_id : Nat) : List Batter :=
  if b.homeId == team_id then b.homeBatters else b.awayBatters

/-- The opposite side's batters (line 335). -/
def oppBatters (b : BoxscoreData) (team_id : Nat) : List Batter :=
  if b.homeId == team_id then b.awayBatters else b.homeBatters

/-- Subject team display name in the richer path (line 338). -/
def ourTeamName (b : BoxscoreData) (team_id : Nat) : String :=
  if b.homeId == team_id then b.homeTeamName else b.awayTeamName

/-- Opponent display name in the richer path (line 339). -/
def oppTeamName (b : BoxscoreData) (team_id : Nat) : String :=
  if b.homeId == team_id then b.awayTeamName else b.homeTeamName

/-- The subject team's lineup as built by the richer path. -/
def teamLineupOf (b : BoxscoreData) (team_id : Nat) : List LineupEntry :=
  richerEntries b.playerInfo metsJerseys 0 (sortedStarters (ourBatters b team_id))

/-- The opponent's lineup as built by the richer path. -/
def oppLineupOf (b : BoxscoreData) (team_id : Nat) : List LineupEntry :=
  richerEntries b.playerInfo jaysJerseys 0 (sortedStarters (oppBatters b team_id))

/-- `our_team['players'][f'ID{player_id}']` in `fallback_get_lineup`: plain
indexing, so a missing player raises `KeyError`. -/
def findPlayer (players : List BoxPlayer) (pid : Nat) : Except PyErr BoxPlayer :=
  match players.find? (fun p => p.personId == pid) with
  | some p => .ok p
  | none => .error (.keyError ("ID" ++ toString pid))

/-- The entry-construction loop of `fallback_get_lineup` (lines 482-505):
iterate the recorded batting-order id list, skip zero placeholders, look the
player up in the side's player dictionary, and assign
`batting_order := len(list_so_far) + 1`; `k` counts the entries appended so
far. -/
def fallbackEntries (players : List BoxPlayer) : List Nat → Nat → Except PyErr (List LineupEntry)
  | [], _ => .ok []
  | pid :: rest, k =>
    if pid = 0 then fallbackEntries players rest k
    else
      match findPlayer players pid with
      | .error e => .error e
      | .ok p =>
        match fallbackEntries players rest (k + 1) with
        | .error e => .error e
        | .ok l =>
          .ok ({ name := p.fullName
                 position := p.positionAbbr
                 batting_order := k + 1
                 jersey := p.jerseyNumber.getD "" } :: l)

/-- `'battingOrder' not in opponent_team` indexing for the opponent side of
the fallback (line 495 indexes without a presence check, so absence raises
`KeyError`). -/
def getBattingOrder (side : BoxSide) : Except PyErr (List Nat) :=
  match side.battingOrder with
  | none => .error (.keyError "battingOrder")
  | some l => .ok l

/-- Body of `fallback_get_lineup` after a successful fetch of the `teams`
object: the subject side's batting order is presence- and truthiness-checked
(line 478), the opponent's is indexed directly. -/
def fallbackBody (data : BoxRaw) (team_id : Nat) : Except PyErr LineupRet :=
  let our := if data.home.teamId == team_id then data.home else data.away
  let opp := if data.home.teamId == team_id then data.away else data.home
  match our.battingOrder with
  | none =>
    .ok (none, some ("Lineup not yet available for this game against " ++ opp.teamName))
  | some order =>
    if order.isEmpty then
      .ok (none, some ("Lineup not yet available for this game against " ++ opp.teamName))
    else
      match fallbackEntries our.players order 0 with
      | .error e => .error e
      | .ok tl =>
        match getBattingOrder opp with
        | .error e => .error e
        | .ok oorder =>
          match fallbackEntries opp.players oorder 0 with
          | .error e => .error e
          | .ok ol =>
            .ok (some { team := { name := our.teamName, lineup := tl }
                        opponent := { name := opp.teamName, lineup := ol } },
                 none)

/-- Embedding of `fallback_get_lineup` (lines 443-520): `RequestException`
and `KeyError` are caught and converted to the two distinct message shapes;
any other exception re-raises. -/
def fallback_get_lineup (resp : Except PyErr (Option BoxRaw)) (team_id : Nat) :
    Except PyErr LineupRet :=
  match
    (match resp with
     | .error e => .error e
     | .ok raw =>
       match getTeams raw with
       | .error e => .error e
       | .ok data => fallbackBody data team_id :
       Except PyErr LineupRet) with
  | .error (.request m) => .ok (none, some ("Error fetching lineup data: " ++ m))
  | .error (.keyError m) => .ok (none, some ("Lineup data not available yet: " ++ m))
  | r => r

/-- The `try` body of `get_lineup` (lines 325-435): richer per-player
construction; if either constructed lineup is empty the boxscore-based
fallback is invoked (line 424, still inside the `try`). -/
def richerAttempt (rich : Except PyErr BoxscoreData) (fb : Except PyErr (Option BoxRaw))
    (team_id : Nat) : Except PyErr LineupRet :=
  match rich with
  | .error e => .error e
  | .ok b =>
    let tl := teamLineupOf b team_id
    let ol := oppLineupOf b team_id
    if tl.isEmpty || ol.isEmpty then fallback_get_lineup fb team_id
    else
      .ok (some { team := { name := ourTeamName b team_id, lineup := tl }
                  opponent := { name := oppTeamName b team_id, lineup := ol } },
           none)

/-- Embedding of `get_lineup` (lines 312-440): the richer attempt, with a
catch-all `except Exception` that re-runs the boxscore-based fallback
(line 440). -/
def get_lineup (rich : Except PyErr BoxscoreData) (fb : Except PyErr (Option BoxRaw))
    (team_id : Nat) : Except PyErr LineupRet :=
  match richerAttempt rich fb team_id with
  | .error _ => fallback_get_lineup fb team_id
  | .ok v => .ok v

/-- The `if umpires:` guard of `main` (line 643): the umpires section is
rendered only for a truthy (non-`None`, non-empty) list. -/
def renderUmpires : Option (List Official) → Option (List Official)
  | none => none
  | some l => if l.isEmpty then none else some l

/-- What a completed run of `main` renders after the game header (the print
side effects of lines 598-649, abstracted as data). -/
structure Report where
  teamAbbr : String
  homeTeam : String
  awayTeam : String
  venue : Option String
  pitchersSection : Option Pitchers
  lineupSection : Option LineupPair
  lineupNote : Option String
  umpiresSection : Option (List Official)
deriving Repr, DecidableEq

/-- The lineup branch of `main` (lines 627-640): with lineup data the note is
empty; otherwise the error text is shown only when it is truthy and does not
contain "not yet available", else the informational notice. -/
def lineupNoteOf (lineup : Option LineupPair) (err : Option String) : Option String :=
  match lineup with
  | some _ => none
  | none =>
    match err with
    | some e =>
      if e ≠ "" && !strContains e "not yet available" then
        some ("Error getting lineup: " ++ e)
      else some "Lineups not yet available."
    | none => some "Lineups not yet available."

/-- Assembly of the rendered report (lines 598-649). -/
def buildReport (abbr home away : String) (venue : Option String)
    (pitchers : Option Pitchers) (umpires : Option (List Official))
    (lineup : Option LineupPair) (err : Option String) : Report :=
  { teamAbbr := abbr
    homeTeam := home
    awayTeam := away
    venue := venue
    pitchersSection := pitchers
    lineupSection := lineup
    lineupNote := lineupNoteOf lineup err
    umpiresSection := renderUmpires umpires }

/-- The remote world a run interacts with: one field per distinct remote
call made by `main`'s resolvers. -/
structure Env where
  sched : Except PyErr (List SchedGame)
  schedByGame : Except PyErr (List SchedGame2)
  boxData : Except PyErr BoxscoreData
  boxRaw : Except PyErr (Option BoxRaw)
  umpResp : Except PyErr (Option (List Official))
  persons : Nat → Except PyErr PeopleResp

/-- Outcome of one process run: an explicit `sys.exit` inside `main` (with
the message printed just before it), a normal completion of `main`, or an
exception escaping `main`. -/
inductive MainOutcome where
  | exited (code : Nat) (printed : String)
  | completed (r : Report)
  | raised (e : PyErr)
deriving Repr, DecidableEq

/-- Embedding of `main` (lines 554-649) for a given `--team` argument and
remote world: validate the abbreviation (uppercasing first), resolve the
game, then fetch pitchers, umpires, and lineup in that order and assemble
the report. When the game resolver returns the `None` game id (both the
no-game absence and a transport failure), `main` prints the `game_status`
variable — which is Python `None` at that point, hence the literal text
"None" — and calls `sys.exit(1)`. -/
def mainOutcome (teamArg : String) (env : Env) : MainOutcome :=
  let team_abbr := pyUpper teamArg
  match lookupTeamId team_abbr with
  | none => .exited 1 (invalidTeamMsg team_abbr)
  | some team_id =>
    match get_team_game env.sched with
    | .absent _ => .exited 1 "None"
    | .found _ status venue home away =>
      match get_probable_pitchers status env.boxRaw env.persons env.schedByGame team_id with
      | .error e => .raised e
      | .ok pitchers =>
        match get_umpires env.umpResp with
        | .error e => .raised e
        | .ok umpires =>
          match get_lineup env.boxData env.boxRaw team_id with
          | .error e => .raised e
          | .ok (lineup, err) =>
            .completed (buildReport team_abbr home away venue pitchers umpires lineup err)

/-- The `__main__` harness (lines 651-657): `sys.exit(0)` after a normal
return of `main`, `sys.exit(1)` for an escaping exception; an explicit
`sys.exit(code)` inside `main` raises `SystemExit`, which `except Exception`
does not catch, so the code passes through. -/
def processExit : MainOutcome → Nat
  | .exited code _ => code
  | .completed _ => 0
  | .raised _ => 1

/-- A person-lookup world answering every query with an empty `people` list. -/
def trivPersons : Nat → Except PyErr PeopleResp := fun _ => .ok { people := [] }

/-- A remote world whose schedule has a Final game and whose raw boxscore
body lacks a well-formed `teams` object (a shape failure). -/
def envPitcherShapeErr : Env :=
  { sched := .ok [{ game_id := 1, status := "Final", home_name := "Mets",
                    away_name := "Jays", venue_name := none }]
    schedByGame := .ok []
    boxData := .error (.other "unused")
    boxRaw := .ok none
    umpResp := .ok none
    persons := trivPersons }

/-- A remote world with an empty schedule: the no-game absence outcome. -/
def envNoGame : Env :=
  { sched := .ok []
    schedByGame := .ok []
    boxData := .error (.other "unused")
    boxRaw := .ok none
    umpResp := .ok none
    persons := trivPersons }

/-- A raw boxscore whose subject side has no recorded batting order. -/
def luBox : BoxRaw :=
  { home := { teamId := 121, teamName := "Mets", players := [], battingOrder := none }
    away := { teamId := 141, teamName := "Jays", players := [], battingOrder := none } }

/-- A remote world for a Scheduled game whose lineup is not yet available:
the richer lineup source raises, the fallback source has no batting order. -/
def envLineupUnavail : Env :=
  { sched := .ok [{ game_id := 1, status := "Scheduled", home_name := "Mets",
                    away_name := "Jays", venue_name := none }]
    schedByGame := .ok []
    boxData := .error (.other "boom")
    boxRaw := .ok (some luBox)
    umpResp := .ok none
    persons := trivPersons }

/-- C4. Team-abbreviation resolution: the table has exactly 30 entries; any
letter case of a valid abbreviation resolves to that abbreviation's fixed
identifier; an unrecognized abbreviation (after uppercasing) makes `main`
print the error message listing the valid options and exit with status 1 —
for every remote world `env`, so before any remote call can matter — and the
printed option list contains every valid abbreviation. -/
theorem team_abbreviation_resolution (s : String) (env : Env) :
    MLB_TEAMS.length = 30
    ∧ (∀ p ∈ MLB_TEAMS, ∀ t : String, pyUpper t = p.1 → resolveTeam t = some p.2)
    ∧ (lookupTeamId (pyUpper s) = none →
        mainOutcome s env = .exited 1 (invalidTeamMsg (pyUpper s))
        ∧ processExit (mainOutcome s env) = 1)
    ∧ (∀ p ∈ MLB_TEAMS, p.1 ∈ sortedAbbrs) := by
  refine ⟨by decide, ?_, ?_, by decide⟩
  · intro p hp t ht
    have hall : ∀ p ∈ MLB_TEAMS, lookupTeamId p.1 = some p.2 := by decide
    unfold resolveTeam
    rw [ht]
    exact hall p hp
  · intro h
    have hout : mainOutcome s env = .exited 1 (invalidTeamMsg (pyUpper s)) := by
      simp only [mainOutcome]
      rw [h]
    exact ⟨hout, by rw [hout]; rfl⟩

/-- Witness for C4 at a valid abbreviation in lower case and at the invalid
abbreviation "xyz". -/
theorem team_abbreviation_resolution_witness :
    resolveTeam "nym" = some 121
    ∧ mainOutcome "xyz" envNoGame = .exited 1 (invalidTeamMsg "XYZ") := by
  constructor
  · exact (team_abbreviation_resolution "nym" envNoGame).2.1 ("NYM", 121) (by decide) "nym" (by decide)
  · have h := ((team_abbreviation_resolution "xyz" envNoGame).2.2.1 (by decide)).1
    rw [show pyUpper "xyz" = "XYZ" from by decide] at h
    exact h

/-- C5. Pitcher-source dispatch is status-keyed: for status "Final" or
"In Progress" the result is exactly the boxscore path's result and is
independent of the schedule-path input; for any other status it is exactly
the schedule path's result and is independent of the boxscore-path inputs. -/
theorem pitcher_dispatch (status : String) (box box2 : Except PyErr (Option BoxRaw))
    (persons persons2 : Nat → Except PyErr PeopleResp)
    (sched sched2 : Except PyErr (List SchedGame2)) (tid : Nat) :
    (status ∈ (["Final", "In Progress"] : List String) →
      get_probable_pitchers status box persons sched tid
          = get_pitchers_from_boxscore box persons tid
      ∧ get_probable_pitchers status box persons sched tid
          = get_probable_pitchers status box persons sched2 tid)
    ∧ (status ∉ (["Final", "In Progress"] : List String) →
      get_probable_pitchers status box persons sched tid
          = get_pitchers_from_schedule sched tid
      ∧ get_probable_pitchers status box persons sched tid
          = get_probable_pitchers status box2 persons2 sched tid) := by
  constructor
  · intro h
    constructor <;> simp [get_probable_pitchers, h]
  · intro h
    constructor <;> simp [get_probable_pitchers, h]

/-- Witness for C5 at the statuses "Final" and "Scheduled". -/
theorem pitcher_dispatch_witness :
    get_probable_pitchers "Final" (.ok none) trivPersons (.ok []) 121
        = get_pitchers_from_boxscore (.ok none) trivPersons 121
    ∧ get_probable_pitchers "Scheduled" (.ok none) trivPersons (.ok []) 121
        = get_pitchers_from_schedule (.ok []) 121 := by
  constructor
  · exact ((pitcher_dispatch "Final" (.ok none) (.ok none) trivPersons trivPersons
      (.ok []) (.ok []) 121).1 (by decide)).1
  · exact ((pitcher_dispatch "Scheduled" (.ok none) (.ok none) trivPersons trivPersons
      (.ok []) (.ok []) 121).2 (by decide)).1

/-- The `THROWS_MAP.get(throws_code, 'Unknown')` computation, expressed as a
conditional on the code. -/
theorem throwsDesc_cases (code : String) :
    (lookupStr THROWS_MAP code).getD "Unknown"
      = (if code = "R" then "RHP" else if code = "L" then "LHP" else "Unknown") := by
  by_cases h1 : code = "R"
  · subst h1; decide
  · by_cases h2 : code = "L"
    · subst h2; decide
    · have e1 : (("R" : String) == code) = false := beq_eq_false_iff_ne.mpr (Ne.symm h1)
      have e2 : (("L" : String) == code) = false := beq_eq_false_iff_ne.mpr (Ne.symm h2)
      simp [lookupStr, THROWS_MAP, List.find?, e1, e2, h1, h2]

/-- The expanded label is always one of the three fixed strings. -/
theorem throwsDesc_mem (code : String) :
    (lookupStr THROWS_MAP code).getD "Unknown" = "RHP"
    ∨ (lookupStr THROWS_MAP code).getD "Unknown" = "LHP"
    ∨ (lookupStr THROWS_MAP code).getD "Unknown" = "Unknown" := by
  rw [throwsDesc_cases]
  by_cases h1 : code = "R" <;> by_cases h2 : code = "L" <;> simp [h1, h2]

/-- C7. Throwing-hand expansion: every details record returned by the person
resolver carries the fixed two-entry mapping with default "Unknown" — code
"R" expands to "RHP", "L" to "LHP", anything else (including the empty
string recorded for an absent code) to "Unknown" — and the label is always
one of those three strings. -/
theorem throws_expansion (resp : Except PyErr PeopleResp) (d : PitcherDetails)
    (h : get_pitcher_details resp = .ok (some d)) :
    d.throws_desc
        = (if d.throws = "R" then "RHP" else if d.throws = "L" then "LHP" else "Unknown")
    ∧ (d.throws_desc = "RHP" ∨ d.throws_desc = "LHP" ∨ d.throws_desc = "Unknown") := by
  rcases resp with e | pd
  · rcases e with m | m | m <;> simp [get_pitcher_details] at h
  · rcases hp : pd.people with _ | ⟨person, rest⟩
    · simp [get_pitcher_details, hp] at h
    · simp only [get_pitcher_details, hp, Except.ok.injEq, Option.some.injEq] at h
      subst h
      exact ⟨throwsDesc_cases person.pitchHandCode, throwsDesc_mem person.pitchHandCode⟩

/-- Witness for C7 at a record with the unmapped code "X". -/
theorem throws_expansion_witness :
    ({ name := "T", jersey := "1", throws := "X", throws_desc := "Unknown" } : PitcherDetails).throws_desc = "RHP"
    ∨ ({ name := "T", jersey := "1", throws := "X", throws_desc := "Unknown" } : PitcherDetails).throws_desc = "LHP"
    ∨ ({ name := "T", jersey := "1", throws := "X", throws_desc := "Unknown" } : PitcherDetails).throws_desc = "Unknown" :=
  (throws_expansion
    (.ok { people := [{ fullName := "T", primaryNumber := "1", pitchHandCode := "X" }] })
    { name := "T", jersey := "1", throws := "X", throws_desc := "Unknown" }
    (by decide)).2

/-- C10. The officials resolver returns the same absent value for a
transport failure, for a body without an `officials` key, and for an empty
officials list, so the caller cannot tell "no officials published" from a
fetch failure; the report's umpires section is omitted for that absent
value. -/
theorem umpires_absence_indistinguishable (m : String) :
    get_umpires (.error (.request m)) = .ok none
    ∧ get_umpires (.ok none) = .ok none
    ∧ get_umpires (.ok (some [])) = .ok none
    ∧ get_umpires (.error (.request m)) = get_umpires (.ok none)
    ∧ renderUmpires none = none := by
  exact ⟨rfl, rfl, by simp [get_umpires], rfl, rfl⟩

/-- C3 counterexample. A shape failure while fetching pitchers (a boxscore
body without a well-formed `teams` object, raising `KeyError`) is not caught
at the pitcher resolver's boundary: the run aborts with the raised exception
before the officials, lineup, and game-header output, and the process exits
with status 1. The claim requires the failure to be converted to a local
failure value with the other steps still producing output. -/
theorem pitcher_shape_error_aborts_run :
    mainOutcome "NYM" envPitcherShapeErr = .raised (.keyError "teams")
    ∧ processExit (mainOutcome "NYM" envPitcherShapeErr) = 1 :=
  ⟨rfl, rfl⟩

/-- C3 amended. Transport failures are caught at every resolver boundary and
converted to that resolver's local failure value; but only transport
failures: a shape failure inside the boxscore pitcher path escapes the
resolver (last conjunct), to be caught only at the outermost boundary. -/
theorem transport_failures_are_local (m : String) (tid : Nat)
    (persons : Nat → Except PyErr PeopleResp) :
    get_pitchers_from_boxscore (.error (.request m)) persons tid = .ok none
    ∧ get_pitchers_from_schedule (.error (.request m)) tid = .ok none
    ∧ get_umpires (.error (.request m)) = .ok none
    ∧ fallback_get_lineup (.error (.request m)) tid
        = .ok (none, some ("Error fetching lineup data: " ++ m))
    ∧ get_team_game (.error (.request m)) = .absent ("Error fetching game data: " ++ m)
    ∧ get_pitcher_details (.error (.request m)) = .ok none
    ∧ get_pitchers_from_boxscore (.ok none) persons tid = .error (.keyError "teams") :=
  ⟨rfl, rfl, rfl, rfl, rfl, rfl, rfl⟩

/-- C1 counterexample. The no-game absence outcome does not exit with status
0: `main` reaches `sys.exit(1)` (line 576), so the process exit status is 1.
The repository's own integration test (`test_no_games_scheduled`) asserts
this code. -/
theorem no_game_absence_exits_one :
    get_team_game envNoGame.sched
        = .absent "No game scheduled for the selected team on this date."
    ∧ processExit (mainOutcome "NYM" envNoGame) = 1 :=
  ⟨rfl, rfl⟩

/-- C1 amended. Exit-code policy: status 1 on invalid team abbreviation and
on every unresolved game — including the no-game absence outcome, which the
source maps to `sys.exit(1)` exactly like a game-resolution transport
failure — and on an uncaught exception during reporting; status 0 exactly
when `main` completes its report, which includes the lineup-unavailable
outcome. -/
theorem exit_code_policy (arg : String) (env : Env) :
    (lookupTeamId (pyUpper arg) = none → processExit (mainOutcome arg env) = 1)
    ∧ (∀ m, get_team_game env.sched = .absent m → processExit (mainOutcome arg env) = 1)
    ∧ (∀ r, mainOutcome arg env = .completed r → processExit (mainOutcome arg env) = 0)
    ∧ (∀ e, mainOutcome arg env = .raised e → processExit (mainOutcome arg env) = 1) := by
  refine ⟨?_, ?_, ?_, ?_⟩
  · intro h
    simp only [mainOutcome]
    rw [h]
    rfl
  · intro m h
    rcases hl : lookupTeamId (pyUpper arg) with _ | tid
    · simp only [mainOutcome]
      rw [hl]
      rfl
    · simp only [mainOutcome]
      rw [hl, h]
      rfl
  · intro r h
    rw [h]
    rfl
  · intro e h
    rw [h]
    rfl

/-- Witness for C1 amended: the no-game world exits 1 and the
lineup-unavailable world completes its report and exits 0. -/
theorem exit_code_policy_witness :
    processExit (mainOutcome "NYM" envNoGame) = 1
    ∧ processExit (mainOutcome "NYM" envLineupUnavail) = 0 := by
  constructor
  · exact (exit_code_policy "NYM" envNoGame).2.1
      "No game scheduled for the selected team on this date." rfl
  · exact (exit_code_policy "NYM" envLineupUnavail).2.2.1 _ rfl

/-- If no remaining player's innings exceed the running maximum, the scan
keeps its current candidate. -/
theorem selectStarter_no_update (l : List BoxPlayer) (m : Rat) (po : Option Nat)
    (h : ∀ p ∈ l, ∀ q, qualInnings p = some q → q ≤ m) :
    selectStarter l m po = po := by
  induction l with
  | nil => rfl
  | cons p rest ih =>
    rcases hq : qualInnings p with _ | q
    · simp only [selectStarter, hq]
      exact ih (fun r hr qr hqr => h r (List.mem_cons_of_mem p hr) qr hqr)
    · have hle : q ≤ m := h p (List.mem_cons_self p rest) q hq
      simp only [selectStarter, hq, if_neg (not_lt.mpr hle)]
      exact ih (fun r hr qr hqr => h r (List.mem_cons_of_mem p hr) qr hqr)

/-- Characterization of the starter scan: if it returns a pitcher id, either
nothing beat the running maximum and the incoming candidate is returned, or
the returned id belongs to the first player attaining the maximum innings
value: a qualifying player whose innings strictly exceed the incoming
maximum, strictly exceed every earlier qualifying player's innings, and are
at least every later qualifying player's innings. -/
theorem selectStarter_spec (l : List BoxPlayer) :
    ∀ (m : Rat) (po : Option Nat) (pid : Nat), selectStarter l m po = some pid →
      ((∀ p ∈ l, ∀ q, qualInnings p = some q → q ≤ m) ∧ po = some pid)
      ∨ (∃ l₁ p l₂ q, l = l₁ ++ p :: l₂ ∧ pid = p.personId ∧ qualInnings p = some q ∧ m < q
          ∧ (∀ r ∈ l₁, ∀ qr, qualInnings r = some qr → qr < q)
          ∧ (∀ s ∈ l₂, ∀ qs, qualInnings s = some qs → qs ≤ q)) := by
  induction l with
  | nil =>
    intro m po pid h
    exact Or.inl ⟨by simp, h⟩
  | cons p rest ih =>
    intro m po pid h
    rcases hq : qualInnings p with _ | q
    · have h' : selectStarter rest m po = some pid := by
        simpa only [selectStarter, hq] using h
      rcases ih m po pid h' with ⟨hall, hpo⟩ | ⟨l₁, p', l₂, q', heq, hpid, hq', hm, hbef, haft⟩
      · refine Or.inl ⟨?_, hpo⟩
        intro r hr qr hqr
        rcases List.mem_cons.mp hr with rfl | hr
        · rw [hq] at hqr; exact absurd hqr (by simp)
        · exact hall r hr qr hqr
      · refine Or.inr ⟨p :: l₁, p', l₂, q', by rw [heq, List.cons_append], hpid, hq', hm, ?_, haft⟩
        intro r hr qr hqr
        rcases List.mem_cons.mp hr with rfl | hr
        · rw [hq] at hqr; exact absurd hqr (by simp)
        · exact hbef r hr qr hqr
    · by_cases hlt : m < q
      · have h' : selectStarter rest q (some p.personId) = some pid := by
          simpa only [selectStarter, hq, if_pos hlt] using h
        rcases ih q (some p.personId) pid h' with ⟨hall, hpo⟩ | ⟨l₁, p', l₂, q', heq, hpid, hq', hm, hbef, haft⟩
        · refine Or.inr ⟨[], p, rest, q, by simp, ?_, hq, hlt, by simp, hall⟩
          exact (Option.some.injEq _ _ ▸ hpo).symm
        · refine Or.inr ⟨p :: l₁, p', l₂, q', by rw [heq, List.cons_append], hpid, hq',
            lt_trans hlt hm, ?_, haft⟩
          intro r hr qr hqr
          rcases List.mem_cons.mp hr with rfl | hr
          · rw [hq] at hqr
            exact (Option.some.injEq _ _ ▸ hqr) ▸ hm
          · exact hbef r hr qr hqr
      · have h' : selectStarter rest m po = some pid := by
          simpa only [selectStarter, hq, if_neg hlt] using h
        rcases ih m po pid h' with ⟨hall, hpo⟩ | ⟨l₁, p', l₂, q', heq, hpid, hq', hm, hbef, haft⟩
        · refine Or.inl ⟨?_, hpo⟩
          intro r hr qr hqr
          rcases List.mem_cons.mp hr with rfl | hr
          · rw [hq] at hqr
            exact (Option.some.injEq _ _ ▸ hqr) ▸ not_lt.mp hlt
          · exact hall r hr qr hqr
        · refine Or.inr ⟨p :: l₁, p', l₂, q', by rw [heq, List.cons_append], hpid, hq', hm, ?_, haft⟩
          intro r hr qr hqr
          rcases List.mem_cons.mp hr with rfl | hr
          · rw [hq] at hqr
            exact (Option.some.injEq _ _ ▸ hqr) ▸ lt_of_le_of_lt (not_lt.mp hlt) hm
          · exact hbef r hr qr hqr

/-- A boxscore side with one pitcher whose recorded innings parse to 0. -/
def zeroInningsBox : BoxRaw :=
  { home := { teamId := 121, teamName := "Mets"
              players := [{ personId := 77, fullName := "Zero Hero", positionAbbr := "P",
                            jerseyNumber := none, pitching := some (some 0) }]
              battingOrder := none }
    away := { teamId := 141, teamName := "Jays", players := [], battingOrder := none } }

/-- A person-lookup world with a valid record for every id. -/
def zeroPersons : Nat → Except PyErr PeopleResp :=
  fun _ => .ok { people := [{ fullName := "Zero Hero", primaryNumber := "45", pitchHandCode := "R" }] }

/-- C6 counterexample. The subject side has exactly one player whose
position is pitcher and who has recorded (parseable) pitching innings — the
value 0.0 — yet the resolver selects nobody for that side: the claim's
"select the one with the greatest innings-pitched value among those with
recorded innings" fails, because the scan starts its running maximum at 0
and only a strictly greater value is ever selected. -/
theorem zero_innings_starter_not_selected :
    (zeroInningsBox.home.players.filter
        (fun p => p.positionAbbr == "P" && (qualInnings p).isSome)).length = 1
    ∧ get_pitchers_from_boxscore (.ok (some zeroInningsBox)) zeroPersons 121
        = .ok (some { team := none, opponent := none,
                      team_name := some "Mets", opponent_team := some "Jays" }) :=
  ⟨rfl, by decide⟩

/-- C6 amended. Boxscore starter selection per side: if every recorded
innings value is at most 0, the side yields no pitcher record (not an
error); if a pitcher id is selected, the resolver fetches that person's full
detail via the separate person lookup, and the selected player is the first
to attain the maximum: a position-P player with positive parsed innings,
strictly greater than every earlier qualifying player's innings and at least
every later qualifying player's innings (ties broken in favor of the
first-seen player). -/
theorem boxscore_starter_selection (side : BoxSide) (persons : Nat → Except PyErr PeopleResp) :
    ((∀ p ∈ side.players, ∀ q, qualInnings p = some q → q ≤ 0) →
        resolveSidePitcher side persons = .ok none)
    ∧ (∀ pid, selectStarter side.players 0 none = some pid → pid ≠ 0 →
        resolveSidePitcher side persons = get_pitcher_details (persons pid)
        ∧ ∃ l₁ p l₂ q, side.players = l₁ ++ p :: l₂ ∧ pid = p.personId
            ∧ qualInnings p = some q ∧ 0 < q
            ∧ (∀ r ∈ l₁, ∀ qr, qualInnings r = some qr → qr < q)
            ∧ (∀ s ∈ l₂, ∀ qs, qualInnings s = some qs → qs ≤ q)) := by
  constructor
  · intro h
    have hn : selectStarter side.players 0 none = none := selectStarter_no_update _ _ _ h
    simp [resolveSidePitcher, hn]
  · intro pid h hne
    constructor
    · simp [resolveSidePitcher, h, hne]
    · rcases selectStarter_spec side.players 0 none pid h with ⟨_, hpo⟩ | hex
      · exact absurd hpo (by simp)
      · exact hex

/-- Witness for C6 amended at a side with a 6-inning starter with id 9. -/
theorem boxscore_starter_selection_witness :
    resolveSidePitcher
        { teamId := 121, teamName := "M"
          players := [{ personId := 9, fullName := "Ace", positionAbbr := "P",
                        jerseyNumber := none, pitching := some (some 6) }]
          battingOrder := none }
        zeroPersons
      = get_pitcher_details (zeroPersons 9) :=
  ((boxscore_starter_selection
      { teamId := 121, teamName := "M"
        players := [{ personId := 9, fullName := "Ace", positionAbbr := "P",
                      jerseyNumber := none, pitching := some (some 6) }]
        battingOrder := none }
      zeroPersons).2 9 (by decide) (by decide)).1

/-- C8. The lineup resolver invokes the boxscore-based fallback before
declaring unavailability: when the richer attempt raises (first conjunct) or
yields an empty lineup for either side (second conjunct), the resolver's
result is exactly the fallback's result; and whenever the resolver returns
no lineup data — which includes every unavailability report — its result is
exactly the fallback's result, so unavailability is declared only once the
fallback has also failed to produce a lineup. -/
theorem lineup_fallback_before_unavailability (rich : Except PyErr BoxscoreData)
    (fb : Except PyErr (Option BoxRaw)) (tid : Nat) :
    (∀ e, richerAttempt rich fb tid = .error e →
        get_lineup rich fb tid = fallback_get_lineup fb tid)
    ∧ (∀ b, rich = .ok b →
        ((teamLineupOf b tid).isEmpty || (oppLineupOf b tid).isEmpty) = true →
        get_lineup rich fb tid = fallback_get_lineup fb tid)
    ∧ (∀ m, get_lineup rich fb tid = .ok (none, m) →
        get_lineup rich fb tid = fallback_get_lineup fb tid) := by
  refine ⟨?_, ?_, ?_⟩
  · intro e h
    rcases hf : fallback_get_lineup fb tid with e' | v
    · simp [get_lineup, h, hf]
    · simp [get_lineup, h, hf]
  · intro b hb hemp
    subst hb
    rcases hf : fallback_get_lineup fb tid with e' | v
    · simp [get_lineup, richerAttempt, hemp, hf]
    · simp [get_lineup, richerAttempt, hemp, hf]
  · intro m h
    rcases hra : richerAttempt rich fb tid with e | v
    · rcases hf : fallback_get_lineup fb tid with e' | v'
      · simp [get_lineup, hra, hf]
      · simp [get_lineup, hra, hf]
    · have hv : get_lineup rich fb tid = .ok v := by simp [get_lineup, hra]
      have hvm : v = (none, m) := by
        have := hv.symm.trans h
        exact (Except.ok.injEq _ _ ▸ this)
      subst hvm
      rcases rich with e | b
      · rw [show richerAttempt (.error e) fb tid = .error e from rfl] at hra
        exact Except.noConfusion hra
      · by_cases hemp : ((teamLineupOf b tid).isEmpty || (oppLineupOf b tid).isEmpty) = true
        · have : fallback_get_lineup fb tid = .ok (none, m) := by
            rw [← hra]
            simp [richerAttempt, hemp]
          rw [hv, this]
        · have : richerAttempt (.ok b) fb tid
              = .ok (some { team := { name := ourTeamName b tid, lineup := teamLineupOf b tid }
                          , opponent := { name := oppTeamName b tid, lineup := oppLineupOf b tid } },
                     none) := by
            simp [richerAttempt, hemp]
          rw [this] at hra
          exact absurd (Except.ok.injEq _ _ ▸ hra) (by simp)

/-- Witness for C8: the richer source raises on the lineup-unavailable
world, and the resolver's answer is the fallback's unavailability answer. -/
theorem lineup_fallback_before_unavailability_witness :
    get_lineup (.error (.other "boom")) (.ok (some luBox)) 121
      = fallback_get_lineup (.ok (some luBox)) 121 :=
  (lineup_fallback_before_unavailability (.error (.other "boom")) (.ok (some luBox)) 121).2.2
    (some "Lineup not yet available for this game against Jays") (by decide)

/-- When every batter in the (sorted) starter list carries a nonempty
position, the richer construction skips nobody and the assigned ranks are
the consecutive integers starting right after the incoming enumerate
index. -/
theorem richerEntries_ranks (pi : Nat → Option String) (jers : List (String × String)) :
    ∀ (bs : List Batter) (i : Nat), (∀ b ∈ bs, ∃ s, b.position = some s ∧ s ≠ "") →
      (richerEntries pi jers i bs).map (fun e => e.batting_order)
        = List.range' (i + 1) (richerEntries pi jers i bs).length := by
  intro bs
  induction bs with
  | nil => intro i _; rfl
  | cons b rest ih =>
    intro i h
    obtain ⟨s, hs, hne⟩ := h b (List.mem_cons_self b rest)
    have hrest := ih (i + 1) (fun x hx => h x (List.mem_cons_of_mem b hx))
    simp only [richerEntries, hs, if_neg hne, List.map_cons, List.length_cons]
    rw [List.range'_succ]
    exact congrArg (List.cons (i + 1)) hrest

/-- The fallback construction assigns ranks `k+1, k+2, ...` where `k` counts
the entries already appended: on success the rank list is consecutive. -/
theorem fallbackEntries_ranks (players : List BoxPlayer) :
    ∀ (order : List Nat) (k : Nat) (l : List LineupEntry),
      fallbackEntries players order k = .ok l →
      l.map (fun e => e.batting_order) = List.range' (k + 1) l.length := by
  intro order
  induction order with
  | nil =>
    intro k l h
    have hl : l = [] := by
      have : (Except.ok [] : Except PyErr (List LineupEntry)) = .ok l := h
      exact ((Except.ok.injEq _ _ ▸ this)).symm ▸ rfl
    subst hl
    rfl
  | cons pid rest ih =>
    intro k l h
    by_cases hz : pid = 0
    · rw [show fallbackEntries players (pid :: rest) k
          = fallbackEntries players rest k from by rw [hz]; simp [fallbackEntries]] at h
      exact ih k l h
    · rcases hf : findPlayer players pid with e | p
      · rw [show fallbackEntries players (pid :: rest) k
            = (match findPlayer players pid with
               | .error e => .error e
               | .ok p =>
                 match fallbackEntries players rest (k + 1) with
                 | .error e => .error e
                 | .ok l2 =>
                   .ok ({ name := p.fullName, position := p.positionAbbr,
                          batting_order := k + 1, jersey := p.jerseyNumber.getD "" } :: l2))
            from by simp [fallbackEntries, hz], hf] at h
        exact Except.noConfusion h
      · rcases hr : fallbackEntries players rest (k + 1) with e | l2
        · rw [show fallbackEntries players (pid :: rest) k
              = (match findPlayer players pid with
                 | .error e => .error e
                 | .ok p =>
                   match fallbackEntries players rest (k + 1) with
                   | .error e => .error e
                   | .ok l2 =>
                     .ok ({ name := p.fullName, position := p.positionAbbr,
                            batting_order := k + 1, jersey := p.jerseyNumber.getD "" } :: l2))
              from by simp [fallbackEntries, hz], hf, hr] at h
          exact Except.noConfusion h
        · rw [show fallbackEntries players (pid :: rest) k
              = (match findPlayer players pid with
                 | .error e => .error e
                 | .ok p =>
                   match fallbackEntries players rest (k + 1) with
                   | .error e => .error e
                   | .ok l2 =>
                     .ok ({ name := p.fullName, position := p.positionAbbr,
                            batting_order := k + 1, jersey := p.jerseyNumber.getD "" } :: l2))
              from by simp [fallbackEntries, hz], hf, hr] at h
          have hl : ({ name := p.fullName, position := p.positionAbbr,
                       batting_order := k + 1, jersey := p.jerseyNumber.getD "" } : LineupEntry) :: l2 = l :=
            Except.ok.injEq _ _ ▸ h
          subst hl
          simp only [List.map_cons, List.length_cons]
          rw [List.range'_succ]
          exact congrArg (List.cons (k + 1)) (ih (k + 1) l2 hr)

/-- Boxscore data whose subject side has two surviving starters, the first
of which lacks a position field. -/
def gapBD : BoxscoreData :=
  { homeId := 121, awayId := 141, homeTeamName := "Mets", awayTeamName := "Blue Jays"
    homeBatters :=
      [ { personId := 1, name := "A", position := none, battingOrder := some "100",
          substitution := false }
      , { personId := 2, name := "B", position := some "SS", battingOrder := some "200",
          substitution := false } ]
    awayBatters :=
      [ { personId := 3, name := "C", position := some "CF", battingOrder := some "100",
          substitution := false } ]
    playerInfo := fun _ => none }

/-- C2 counterexample. With a surviving starter that lacks a position field,
the richer path returns a one-entry lineup whose only rank is 2 — the
skipped starter still consumed an enumerate index — so the ranks are not
`1..N` (`[2] ≠ [1]`), refuting the claim's "this holds also when a surviving
starter record lacks a position field". -/
theorem richer_rank_gap_on_missing_position :
    get_lineup (.ok gapBD) (.ok none) 121
      = .ok (some { team := { name := "Mets"
                              lineup := [{ name := "B", position := "SS",
                                           batting_order := 2, jersey := "" }] }
                  , opponent := { name := "Blue Jays"
                                  lineup := [{ name := "C", position := "CF",
                                               batting_order := 1, jersey := "" }] } },
             none)
    ∧ [2] ≠ List.range' 1 1 :=
  ⟨by decide, by decide⟩

/-- C2 amended. Batting-order ranks are exactly `1..N`: unconditionally for
the fallback construction (both sides are instances of `fallbackEntries`
at 0), and for both sides of the richer construction provided every
surviving starter carries a nonempty position field — a surviving starter
without one is skipped from the output but still consumes a rank, leaving a
gap. The ranks come from enumeration, never from the raw source
batting-order codes. -/
theorem lineup_ranks_contiguous (b : BoxscoreData) (tid : Nat)
    (players : List BoxPlayer) (order : List Nat) (l : List LineupEntry)
    (hteam : ∀ x ∈ sortedStarters (ourBatters b tid), ∃ s, x.position = some s ∧ s ≠ "")
    (hopp : ∀ x ∈ sortedStarters (oppBatters b tid), ∃ s, x.position = some s ∧ s ≠ "")
    (hfb : fallbackEntries players order 0 = .ok l) :
    (teamLineupOf b tid).map (fun e => e.batting_order)
        = List.range' 1 (teamLineupOf b tid).length
    ∧ (oppLineupOf b tid).map (fun e => e.batting_order)
        = List.range' 1 (oppLineupOf b tid).length
    ∧ l.map (fun e => e.batting_order) = List.range' 1 l.length := by
  refine ⟨?_, ?_, ?_⟩
  · exact richerEntries_ranks b.playerInfo metsJerseys (sortedStarters (ourBatters b tid)) 0 hteam
  · exact richerEntries_ranks b.playerInfo jaysJerseys (sortedStarters (oppBatters b tid)) 0 hopp
  · exact fallbackEntries_ranks players order 0 l hfb

/-- Boxscore data whose subject side has three starters, each with a
position. -/
def witBD : BoxscoreData :=
  { homeId := 121, awayId := 141, homeTeamName := "Mets", awayTeamName := "Jays"
    homeBatters :=
      [ { personId := 1, name := "A", position := some "SS", battingOrder := some "300",
          substitution := false }
      , { personId := 2, name := "B", position := some "CF", battingOrder := some "100",
          substitution := false }
      , { personId := 3, name := "D", position := some "1B", battingOrder := some "200",
          substitution := false } ]
    awayBatters := []
    playerInfo := fun _ => none }

/-- Player dictionary for the fallback-path witness. -/
def witPlayers : List BoxPlayer :=
  [ { personId := 4, fullName := "P4", positionAbbr := "C", jerseyNumber := none,
      pitching := none }
  , { personId := 5, fullName := "P5", positionAbbr := "RF", jerseyNumber := none,
      pitching := none } ]

/-- Witness for C2 amended: a three-starter side with positions everywhere
gets ranks `[1, 2, 3]`, and a two-id fallback order gets ranks `[1, 2]`. -/
theorem lineup_ranks_contiguous_witness :
    (teamLineupOf witBD 121).map (fun e => e.batting_order) = List.range' 1 3
    ∧ ([{ name := "P4", position := "C", batting_order := 1, jersey := "" },
        { name := "P5", position := "RF", batting_order := 2, jersey := "" }] : List LineupEntry).map
          (fun e => e.batting_order)
      = List.range' 1 2 := by
  have h := lineup_ranks_contiguous witBD 121 witPlayers [4, 5]
    [{ name := "P4", position := "C", batting_order := 1, jersey := "" },
     { name := "P5", position := "RF", batting_order := 2, jersey := "" }]
    (by intro x hx
        rw [show sortedStarters (ourBatters witBD 121)
            = [ { personId := 2, name := "B", position := some "CF", battingOrder := some "100",
                  substitution := false }
              , { personId := 3, name := "D", position := some "1B", battingOrder := some "200",
                  substitution := false }
              , { personId := 1, name := "A", position := some "SS", battingOrder := some "300",
                  substitution := false } ] from by decide] at hx
        simp only [List.mem_cons, List.not_mem_nil, or_false] at hx
        rcases hx with rfl | rfl | rfl
        · exact ⟨"CF", rfl, by decide⟩
        · exact ⟨"1B", rfl, by decide⟩
        · exact ⟨"SS", rfl, by decide⟩)
    (by intro x hx
        rw [show sortedStarters (oppBatters witBD 121) = [] from by decide] at hx
        cases hx)
    (by decide)
  refine ⟨?_, h.2.2⟩
  have h1 := h.1
  rw [show (teamLineupOf witBD 121).length = 3 from by decide] at h1
  exact h1

/-- C9. Every resolver that splits the game's two sides tests only whether
the subject team id equals the home side's id: a team id equal to neither
participant is silently treated as the away team, the resolvers return
normally (never a 'team not in this game' error), and the home side is
reported as the 'opponent'. Stated for the boxscore pitcher body, the
schedule pitcher path, the fallback lineup body (including the
unavailability message, which then names the home team as the opponent),
and the richer lineup path's side selectors. -/
theorem side_matching_home_only (d : BoxRaw) (g : SchedGame2) (rest : List SchedGame2)
    (b : BoxscoreData) (persons : Nat → Except PyErr PeopleResp) (tid : Nat)
    (hdh : tid ≠ d.home.teamId) (hda : tid ≠ d.away.teamId)
    (hbh : tid ≠ b.homeId) (hba : tid ≠ b.awayId)
    (hg : ∀ h, g.home_id = some h → tid ≠ h) :
    (∀ p, pitchersFromBoxData d persons tid = .ok (some p) →
        p.team_name = some d.away.teamName ∧ p.opponent_team = some d.home.teamName)
    ∧ (∀ p, get_pitchers_from_schedule (.ok (g :: rest)) tid = .ok (some p) →
        p.team_name = g.away_name ∧ p.opponent_team = g.home_name)
    ∧ (∀ pair m, fallbackBody d tid = .ok (some pair, m) →
        pair.team.name = d.away.teamName ∧ pair.opponent.name = d.home.teamName)
    ∧ (d.away.battingOrder = none →
        fallbackBody d tid
          = .ok (none, some ("Lineup not yet available for this game against "
              ++ d.home.teamName)))
    ∧ ourBatters b tid = b.awayBatters ∧ oppBatters b tid = b.homeBatters
    ∧ ourTeamName b tid = b.awayTeamName ∧ oppTeamName b tid = b.homeTeamName := by
  have hbe : (d.home.teamId == tid) = false := beq_eq_false_iff_ne.mpr (Ne.symm hdh)
  have hbe2 : (b.homeId == tid) = false := beq_eq_false_iff_ne.mpr (Ne.symm hbh)
  refine ⟨?_, ?_, ?_, ?_, ?_, ?_, ?_, ?_⟩
  · intro p hp
    simp only [pitchersFromBoxData, hbe, Bool.false_eq_true, if_false] at hp
    rcases h1 : resolveSidePitcher d.away persons with e | tP
    · rw [h1] at hp; exact Except.noConfusion hp
    · rw [h1] at hp
      rcases h2 : resolveSidePitcher d.home persons with e | oP
      · rw [h2] at hp; exact Except.noConfusion hp
      · rw [h2] at hp
        have hp1 : some ({ team := tP, opponent := oP, team_name := some d.away.teamName,
                           opponent_team := some d.home.teamName } : Pitchers) = some p :=
          Except.ok.injEq _ _ ▸ hp
        have hp2 : ({ team := tP, opponent := oP, team_name := some d.away.teamName,
                      opponent_team := some d.home.teamName } : Pitchers) = p :=
          Option.some.injEq _ _ ▸ hp1
        subst hp2
        exact ⟨rfl, rfl⟩
  · intro p hp
    have hgs : (match g.home_id with | some h => tid == h | none => false) = false := by
      rcases hgo : g.home_id with _ | h
      · rfl
      · exact beq_eq_false_iff_ne.mpr (hg h hgo)
    simp only [get_pitchers_from_schedule, hgs, Bool.false_eq_true, if_false] at hp
    have hp1 : some ({ team := create_pitcher_info g.away_probable_pitcher,
                       opponent := create_pitcher_info g.home_probable_pitcher,
                       team_name := g.away_name, opponent_team := g.home_name } : Pitchers)
        = some p :=
      Except.ok.injEq _ _ ▸ hp
    have hp2 : ({ team := create_pitcher_info g.away_probable_pitcher,
                  opponent := create_pitcher_info g.home_probable_pitcher,
                  team_name := g.away_name, opponent_team := g.home_name } : Pitchers) = p :=
      Option.some.injEq _ _ ▸ hp1
    subst hp2
    exact ⟨rfl, rfl⟩
  · intro pair m hp
    simp only [fallbackBody, hbe, Bool.false_eq_true, if_false] at hp
    split at hp
    · have h1 := Except.ok.injEq _ _ ▸ hp
      exact absurd (congrArg Prod.fst h1) (by simp)
    · split at hp
      · have h1 := Except.ok.injEq _ _ ▸ hp
        exact absurd (congrArg Prod.fst h1) (by simp)
      · split at hp
        · exact Except.noConfusion hp
        · split at hp
          · exact Except.noConfusion hp
          · split at hp
            · exact Except.noConfusion hp
            · have h1 := Except.ok.injEq _ _ ▸ hp
              have hfst := congrArg Prod.fst h1
              have hp2 := Option.some.injEq _ _ ▸ hfst
              rw [← hp2]
              exact ⟨rfl, rfl⟩
  · intro h
    simp only [fallbackBody, hbe, Bool.false_eq_true, if_false, h]
  · simp only [ourBatters, hbe2, Bool.false_eq_true, if_false]
  · simp only [oppBatters, hbe2, Bool.false_eq_true, if_false]
  · simp only [ourTeamName, hbe2, Bool.false_eq_true, if_false]
  · simp only [oppTeamName, hbe2, Bool.false_eq_true, if_false]

/-- Witness for C9 at team id 999, which matches neither side of any of the
concrete worlds: the unavailability message names the home team as the
opponent, and the richer path's subject side is the away side. -/
theorem side_matching_home_only_witness :
    fallbackBody luBox 999
      = .ok (none, some ("Lineup not yet available for this game against "
          ++ luBox.home.teamName))
    ∧ ourBatters gapBD 999 = gapBD.awayBatters := by
  have h := side_matching_home_only luBox
    { home_id := some 121, home_name := some "H", away_name := some "A",
      home_probable_pitcher := none, away_probable_pitcher := none }
    [] gapBD trivPersons 999
    (by decide) (by decide) (by decide) (by decide)
    (by intro x hx
        have hx2 : (121 : Nat) = x := Option.some.injEq _ _ ▸ hx
        subst hx2
        decide)
  exact ⟨h.2.2.2.1 rfl, h.2.2.2.2.1⟩
